import Mathlib

/-!
Verification of the daytona-mcp sandbox handle cache and resolver.

Shallow embedding of the core logic of `DaytonaMcpServer`
(src/unnamed/part_000: class `DaytonaMcpServer`, method `getSandbox`,
constructor), the cache map operations (JS `Map.get` / `Map.set`,
insertion-ordered association list with replace-on-set semantics), the
constants (src/src/constants.ts), and the tool handlers for `get-sandbox`
and `execute-command` (src/src/server/tools/sandbox-tools.ts).

Time is modelled as `Nat` milliseconds; the JS `Date.now()` value is an
explicit `now` parameter. The Daytona backend (`daytona.get`,
`sandbox.process.executeCommand`) is an explicit function parameter
returning `Except BackendError _`. Observable effects (backend calls,
cache writes, log lines) are recorded in an event trace.
-/

namespace DaytonaMcp

/-- Cache entry, from `SandboxCacheItem` in src/types: `{ id, expiresAt }`. -/
structure SandboxCacheItem where
  id : String
  expiresAt : Nat
  deriving DecidableEq, Repr

/-- The sandbox handle returned by the backend (the fields the handlers read). -/
structure Sandbox where
  id : String
  status : String
  createdAt : String
  deriving DecidableEq, Repr

/-- A backend failure: the backend either reports the id does not exist
(`notFound`) or fails for any other reason (`other`). -/
inductive BackendError where
  | notFound (message : String)
  | other (message : String)
  deriving DecidableEq, Repr

/-- The `.message` field of a thrown backend error. -/
def BackendError.message : BackendError → String
  | .notFound m => m
  | .other m => m

/-- The sandbox cache: JS `Map<string, SandboxCacheItem>` modelled as an
insertion-ordered association list with at-most-replace-on-set semantics. -/
abbrev CacheMap := List (String × SandboxCacheItem)

/-- JS `Map.get`: the value of the first (in a well-formed map, only)
entry whose key equals `k`, or `none`. -/
def mapGet (m : CacheMap) (k : String) : Option SandboxCacheItem :=
  match m with
  | [] => none
  | (k', v) :: rest => if k' = k then some v else mapGet rest k

/-- JS `Map.set`: replace the value of the existing entry for `k` in
place, or append a new entry if `k` is absent. -/
def mapSet (m : CacheMap) (k : String) (v : SandboxCacheItem) : CacheMap :=
  match m with
  | [] => [(k, v)]
  | (k', v') :: rest => if k' = k then (k, v) :: rest else (k', v') :: mapSet rest k v

/-- Number of entries in the map whose key is `k`. -/
def countKey (m : CacheMap) (k : String) : Nat :=
  (m.filter (fun p => p.1 = k)).length

/-- Default cache TTL in milliseconds, from src/src/constants.ts. -/
def DEFAULT_CACHE_TTL : Nat := 30000

/-- The options consumed by the `DaytonaMcpServer` constructor
(the fields the cache logic reads). -/
structure DaytonaMcpServerOptions where
  cacheTtl : Option Nat
  verbose : Option Bool
  deriving DecidableEq, Repr

/-- The mutable server state relevant to the cache: the private fields
`sandboxCache`, `cacheTtl`, `verbose` of class `DaytonaMcpServer`. -/
structure DaytonaMcpServer where
  sandboxCache : CacheMap
  cacheTtl : Nat
  verbose : Bool
  deriving DecidableEq, Repr

/-- The constructor of `DaytonaMcpServer`: empty cache,
`cacheTtl = options.cacheTtl ?? DEFAULT_CACHE_TTL`,
`verbose = options.verbose ?? false`. -/
def mkServer (options : DaytonaMcpServerOptions) : DaytonaMcpServer :=
  { sandboxCache := []
    cacheTtl := options.cacheTtl.getD DEFAULT_CACHE_TTL
    verbose := options.verbose.getD false }

/-- Observable effects of a `getSandbox` call, in order of occurrence. -/
inductive Event where
  | backendGet (id : String)
  | cachePut (id : String) (expiresAt : Nat)
  | logLine (message : String)
  deriving DecidableEq, Repr

/-- The `log` method: emits a console line only when `verbose` is set. -/
def logEvents (verbose : Bool) (message : String) : List Event :=
  if verbose then [Event.logLine ("[DaytonaMcpServer] " ++ message)] else []

/-- The freshness test of `getSandbox` line 78:
`cacheItem && cacheItem.expiresAt > now`. -/
def isFresh (cacheItem : Option SandboxCacheItem) (now : Nat) : Bool :=
  match cacheItem with
  | some item => decide (now < item.expiresAt)
  | none => false

/-- `DaytonaMcpServer.getSandbox` (src/unnamed/part_000 lines 73-94):
look up the cache; if fresh, log and return `daytona.get(sandboxId)`
without touching the cache; otherwise log, fetch, and on success write
`{ id, expiresAt: now + cacheTtl }` into the cache before returning.
Returns the result, the updated server state, and the event trace. -/
def DaytonaMcpServer.getSandbox (st : DaytonaMcpServer)
    (backend : String → Except BackendError Sandbox)
    (now : Nat) (sandboxId : String) :
    Except BackendError Sandbox × DaytonaMcpServer × List Event :=
  let cacheItem := mapGet st.sandboxCache sandboxId
  if isFresh cacheItem now then
    (backend sandboxId, st,
      logEvents st.verbose ("Using cached sandbox: " ++ sandboxId) ++
        [Event.backendGet sandboxId])
  else
    let pre := logEvents st.verbose ("Fetching sandbox: " ++ sandboxId) ++
      [Event.backendGet sandboxId]
    match backend sandboxId with
    | Except.ok sandbox =>
        let newCache := mapSet st.sandboxCache sandboxId ⟨sandboxId, now + st.cacheTtl⟩
        (Except.ok sandbox, { st with sandboxCache := newCache },
         pre ++ [Event.cachePut sandboxId (now + st.cacheTtl)])
    | Except.error e => (Except.error e, st, pre)

/-- Whether an event is a backend `get` call. -/
def isBackendGet : Event → Bool
  | .backendGet _ => true
  | _ => false

/-- Number of backend `get` calls recorded in a trace. -/
def countBackendGets (tr : List Event) : Nat :=
  (tr.filter isBackendGet).length

/-- The cache-put events of a trace, as `(id, expiresAt)` pairs. -/
def putEvents (tr : List Event) : List (String × Nat) :=
  tr.filterMap (fun e =>
    match e with
    | .cachePut i x => some (i, x)
    | _ => none)

/-- Outcome of the cache lookup, spec section 4.1. -/
inductive LookupResult where
  | Fresh
  | Stale
  | Absent
  deriving DecidableEq, Repr

/-- The cache `lookup` operation, embedding the inlined lookup of
`getSandbox` lines 75-78: Fresh if an entry exists and `now < expiresAt`,
Stale if an entry exists and `now >= expiresAt`, Absent if no entry. -/
def lookup (cache : CacheMap) (id : String) (now : Nat) : LookupResult :=
  match mapGet cache id with
  | some item => if now < item.expiresAt then LookupResult.Fresh else LookupResult.Stale
  | none => LookupResult.Absent

/-- The cache `put` operation, embedding the inlined write of
`getSandbox` lines 88-91: overwrite the entry for `id` with
`expiresAt = now + ttl`. -/
def put (cache : CacheMap) (id : String) (now ttl : Nat) : CacheMap :=
  mapSet cache id ⟨id, now + ttl⟩

/-- Fold a sequence of `put(id, ...)` calls over a cache; each element of
`stamps` is the `(now, ttl)` pair of one call. -/
def putSeq (cache : CacheMap) (id : String) (stamps : List (Nat × Nat)) : CacheMap :=
  stamps.foldl (fun c s => put c id s.1 s.2) cache

/-- The protocol-level error shape thrown by tool handlers:
`{ code, message }`. -/
structure McpError where
  code : String
  message : String
  deriving DecidableEq, Repr

/-- A tool handler success payload: `{ text }`. -/
structure ToolResult where
  text : String
  deriving DecidableEq, Repr

/-- The JSON payload built by the `get-sandbox` handler from the handle. -/
def serializeSandbox (sandbox : Sandbox) : String :=
  "\x7b\"id\":\"" ++ sandbox.id ++ "\",\"status\":\"" ++ sandbox.status ++
    "\",\"createdAt\":\"" ++ sandbox.createdAt ++ "\"\x7d"

/-- The `get-sandbox` tool handler
(src/src/server/tools/sandbox-tools.ts lines 58-83): call
`server.getSandbox(params.sandboxId)`; on success return the serialized
handle; on any caught error throw
`{ code: "ResourceNotFound", message: "Sandbox not found: " + sandboxId }`. -/
def getSandboxToolHandler (backend : String → Except BackendError Sandbox)
    (now : Nat) (st : DaytonaMcpServer) (sandboxId : String) :
    Except McpError ToolResult × DaytonaMcpServer :=
  match st.getSandbox backend now sandboxId with
  | (Except.ok sandbox, st2, _) => (Except.ok ⟨serializeSandbox sandbox⟩, st2)
  | (Except.error _, st2, _) =>
      (Except.error ⟨"ResourceNotFound", "Sandbox not found: " ++ sandboxId⟩, st2)

/-- The response of `sandbox.process.executeCommand`. -/
structure ExecuteResponse where
  exitCode : Int
  result : String
  deriving DecidableEq, Repr

/-- The JSON payload built by the `execute-command` handler. -/
def serializeExecuteResponse (r : ExecuteResponse) : String :=
  "\x7b\"exitCode\":" ++ toString r.exitCode ++ ",\"output\":\"" ++ r.result ++ "\"\x7d"

/-- The `execute-command` tool handler
(src/src/server/tools/sandbox-tools.ts lines 196-227): resolve the
sandbox, run `sandbox.process.executeCommand(command, cwd, timeout)`; on
success return the serialized result; on any caught error (resolution or
execution) throw `{ code: "InternalError", message: "Failed to execute
command: " + error.message }`. -/
def executeCommandToolHandler (backend : String → Except BackendError Sandbox)
    (exec : Sandbox → String → Option String → Option Nat → Except BackendError ExecuteResponse)
    (now : Nat) (st : DaytonaMcpServer) (sandboxId command : String)
    (cwd : Option String) (timeoutMs : Option Nat) :
    Except McpError ToolResult × DaytonaMcpServer :=
  match st.getSandbox backend now sandboxId with
  | (Except.ok sandbox, st2, _) =>
      match exec sandbox command cwd timeoutMs with
      | Except.ok result => (Except.ok ⟨serializeExecuteResponse result⟩, st2)
      | Except.error e =>
          (Except.error ⟨"InternalError", "Failed to execute command: " ++ e.message⟩, st2)
  | (Except.error e, st2, _) =>
      (Except.error ⟨"InternalError", "Failed to execute command: " ++ e.message⟩, st2)

/-- The six possible orders of the atomic blocks of two concurrent
`getSandbox` runs A and B in the cooperative scheduler: each run is
block 1 (cache lookup and `now` capture, lines 75-81 up to the await)
followed after the awaited backend call by block 2 (conditional cache
write and return, lines 85-93); block 1 precedes block 2 within a run. -/
inductive Interleaving where
  | a1a2b1b2
  | a1b1a2b2
  | a1b1b2a2
  | b1a1b2a2
  | b1a1a2b2
  | b1b2a1a2
  deriving DecidableEq, Repr

/-- Block 1 of a `getSandbox` run: read the cache at its captured `now`
and decide freshness. -/
def resolveBlock1 (cache : CacheMap) (id : String) (now : Nat) : Bool :=
  isFresh (mapGet cache id) now

/-- Block 2 of a `getSandbox` run: on the miss/stale path write the
entry stamped with the `now` captured in block 1; on the fresh path the
cache is untouched. Returns the new cache and the `expiresAt` values
written (in order). -/
def resolveBlock2 (cache : CacheMap) (id : String) (now ttl : Nat) (fresh : Bool) :
    CacheMap × List Nat :=
  if fresh then (cache, [])
  else (mapSet cache id ⟨id, now + ttl⟩, [now + ttl])

/-- Execute two concurrent `getSandbox(id)` runs A (capturing `now = tA`)
and B (capturing `now = tB`) under a given interleaving, starting from
cache `c0` with shared TTL `ttl`. Returns A's and B's returned values
(each run returns the backend fetch), the final cache, and the
`expiresAt` values of the cache writes in execution order. -/
def runInterleaving (inter : Interleaving)
    (backend : String → Except BackendError Sandbox)
    (c0 : CacheMap) (id : String) (tA tB ttl : Nat) :
    (Except BackendError Sandbox × Except BackendError Sandbox) × CacheMap × List Nat :=
  match inter with
  | .a1a2b1b2 =>
      let fA := resolveBlock1 c0 id tA
      let sA := resolveBlock2 c0 id tA ttl fA
      let fB := resolveBlock1 sA.1 id tB
      let sB := resolveBlock2 sA.1 id tB ttl fB
      ((backend id, backend id), sB.1, sA.2 ++ sB.2)
  | .a1b1a2b2 =>
      let fA := resolveBlock1 c0 id tA
      let fB := resolveBlock1 c0 id tB
      let sA := resolveBlock2 c0 id tA ttl fA
      let sB := resolveBlock2 sA.1 id tB ttl fB
      ((backend id, backend id), sB.1, sA.2 ++ sB.2)
  | .a1b1b2a2 =>
      let fA := resolveBlock1 c0 id tA
      let fB := resolveBlock1 c0 id tB
      let sB := resolveBlock2 c0 id tB ttl fB
      let sA := resolveBlock2 sB.1 id tA ttl fA
      ((backend id, backend id), sA.1, sB.2 ++ sA.2)
  | .b1a1b2a2 =>
      let fB := resolveBlock1 c0 id tB
      let fA := resolveBlock1 c0 id tA
      let sB := resolveBlock2 c0 id tB ttl fB
      let sA := resolveBlock2 sB.1 id tA ttl fA
      ((backend id, backend id), sA.1, sB.2 ++ sA.2)
  | .b1a1a2b2 =>
      let fB := resolveBlock1 c0 id tB
      let fA := resolveBlock1 c0 id tA
      let sA := resolveBlock2 c0 id tA ttl fA
      let sB := resolveBlock2 sA.1 id tB ttl fB
      ((backend id, backend id), sB.1, sA.2 ++ sB.2)
  | .b1b2a1a2 =>
      let fB := resolveBlock1 c0 id tB
      let sB := resolveBlock2 c0 id tB ttl fB
      let fA := resolveBlock1 sB.1 id tA
      let sA := resolveBlock2 sB.1 id tA ttl fA
      ((backend id, backend id), sA.1, sB.2 ++ sA.2)

/-! ### Lemmas about the cache map -/

/-- After `mapSet m k v`, looking up `k` yields `v`. -/
theorem mapGet_mapSet_self (m : CacheMap) (k : String) (v : SandboxCacheItem) :
    mapGet (mapSet m k v) k = some v := by
  induction m with
  | nil => simp [mapGet, mapSet]
  | cons hd tl ih =>
      by_cases h : hd.1 = k
      · simp [mapGet, mapSet, h]
      · simp [mapGet, mapSet, h, ih]

/-- `mapSet m k v` does not change the lookup of any other key. -/
theorem mapGet_mapSet_ne (m : CacheMap) (k q : String) (v : SandboxCacheItem)
    (h : q ≠ k) : mapGet (mapSet m k v) q = mapGet m q := by
  induction m with
  | nil => simp [mapGet, mapSet, Ne.symm h]
  | cons hd tl ih =>
      obtain ⟨a, b⟩ := hd
      by_cases hk : a = k
      · subst hk
        simp [mapGet, mapSet, Ne.symm h]
      · by_cases hq : a = q <;> simp [mapGet, mapSet, hk, hq, ih, h]

/-- Unfolding `countKey` over a cons cell. -/
theorem countKey_cons (p : String × SandboxCacheItem) (tl : CacheMap) (k : String) :
    countKey (p :: tl) k = (if p.1 = k then 1 else 0) + countKey tl k := by
  by_cases h : p.1 = k <;> simp [countKey, List.filter_cons, h] <;> omega

/-- `mapSet` leaves one entry for a previously-absent key and as many as
before for a previously-present key. -/
theorem countKey_mapSet_self (m : CacheMap) (k : String) (v : SandboxCacheItem) :
    countKey (mapSet m k v) k = max 1 (countKey m k) := by
  induction m with
  | nil => simp [countKey, mapSet]
  | cons hd tl ih =>
      by_cases h : hd.1 = k
      · simp only [mapSet, if_pos h]
        rw [countKey_cons, countKey_cons]
        simp [h]
      · simp only [mapSet, if_neg h]
        rw [countKey_cons, countKey_cons, ih]
        simp [h]

/-- `mapSet` does not change the entry count of any other key. -/
theorem countKey_mapSet_ne (m : CacheMap) (k q : String) (v : SandboxCacheItem)
    (h : q ≠ k) : countKey (mapSet m k v) q = countKey m q := by
  induction m with
  | nil => simp [countKey, mapSet, Ne.symm h]
  | cons hd tl ih =>
      by_cases hk : hd.1 = k
      · simp only [mapSet, if_pos hk]
        rw [countKey_cons, countKey_cons]
        rw [hk]
      · simp only [mapSet, if_neg hk]
        rw [countKey_cons, countKey_cons, ih]

/-- A key with no entry has entry count zero. -/
theorem countKey_eq_zero_of_mapGet_none (m : CacheMap) (k : String)
    (h : mapGet m k = none) : countKey m k = 0 := by
  induction m with
  | nil => simp [countKey]
  | cons hd tl ih =>
      by_cases hk : hd.1 = k
      · simp [mapGet, hk] at h
      · simp only [mapGet, if_neg hk] at h
        rw [countKey_cons, ih h]
        simp [hk]

/-- `mapSet` never deletes: any key present before is present after. -/
theorem mapGet_isSome_mapSet (m : CacheMap) (k q : String) (v : SandboxCacheItem)
    (h : (mapGet m q).isSome) : (mapGet (mapSet m k v) q).isSome := by
  by_cases hq : q = k
  · subst hq
    simp [mapGet_mapSet_self]
  · rw [mapGet_mapSet_ne m k q v hq]
    exact h

/-! ### Unfolding lemmas for `getSandbox` -/

/-- Log events contain no backend calls. -/
theorem countBackendGets_logEvents (v : Bool) (m : String) :
    countBackendGets (logEvents v m) = 0 := by
  cases v <;> rfl

/-- Log events contain no cache puts. -/
theorem putEvents_logEvents (v : Bool) (m : String) :
    putEvents (logEvents v m) = [] := by
  cases v <;> rfl

/-- `countBackendGets` distributes over append. -/
theorem countBackendGets_append (a b : List Event) :
    countBackendGets (a ++ b) = countBackendGets a + countBackendGets b := by
  simp [countBackendGets, List.filter_append]

/-- `putEvents` distributes over append. -/
theorem putEvents_append (a b : List Event) :
    putEvents (a ++ b) = putEvents a ++ putEvents b := by
  simp [putEvents, List.filterMap_append]

/-- `getSandbox` on a fresh cache hit: the backend is still called and
its result returned, the state is untouched, and no put is recorded. -/
theorem getSandbox_fresh (st : DaytonaMcpServer)
    (backend : String → Except BackendError Sandbox) (now : Nat) (sandboxId : String)
    (h : isFresh (mapGet st.sandboxCache sandboxId) now = true) :
    st.getSandbox backend now sandboxId =
      (backend sandboxId, st,
        logEvents st.verbose ("Using cached sandbox: " ++ sandboxId) ++
          [Event.backendGet sandboxId]) := by
  simp [DaytonaMcpServer.getSandbox, h]

/-- `getSandbox` on a miss or stale entry with a successful backend
fetch: the handle is returned and the entry is overwritten with
`expiresAt = now + cacheTtl`. -/
theorem getSandbox_miss_ok (st : DaytonaMcpServer)
    (backend : String → Except BackendError Sandbox) (now : Nat) (sandboxId : String)
    (sandbox : Sandbox)
    (h : isFresh (mapGet st.sandboxCache sandboxId) now = false)
    (hb : backend sandboxId = Except.ok sandbox) :
    st.getSandbox backend now sandboxId =
      (Except.ok sandbox,
        { st with sandboxCache :=
            mapSet st.sandboxCache sandboxId ⟨sandboxId, now + st.cacheTtl⟩ },
        logEvents st.verbose ("Fetching sandbox: " ++ sandboxId) ++
          [Event.backendGet sandboxId, Event.cachePut sandboxId (now + st.cacheTtl)]) := by
  simp [DaytonaMcpServer.getSandbox, h, hb]

/-- `getSandbox` on a miss or stale entry with a failing backend fetch:
the error is returned and the state is untouched. -/
theorem getSandbox_miss_err (st : DaytonaMcpServer)
    (backend : String → Except BackendError Sandbox) (now : Nat) (sandboxId : String)
    (e : BackendError)
    (h : isFresh (mapGet st.sandboxCache sandboxId) now = false)
    (hb : backend sandboxId = Except.error e) :
    st.getSandbox backend now sandboxId =
      (Except.error e, st,
        logEvents st.verbose ("Fetching sandbox: " ++ sandboxId) ++
          [Event.backendGet sandboxId]) := by
  simp [DaytonaMcpServer.getSandbox, h, hb]

/-- The returned value of `getSandbox` is always the backend fetch. -/
theorem getSandbox_fst (st : DaytonaMcpServer)
    (backend : String → Except BackendError Sandbox) (now : Nat) (sandboxId : String) :
    (st.getSandbox backend now sandboxId).1 = backend sandboxId := by
  by_cases h : isFresh (mapGet st.sandboxCache sandboxId) now = true
  · rw [getSandbox_fresh st backend now sandboxId h]
  · rw [Bool.not_eq_true] at h
    cases hb : backend sandboxId with
    | ok sandbox => rw [getSandbox_miss_ok st backend now sandboxId sandbox h hb]
    | error e => rw [getSandbox_miss_err st backend now sandboxId e h hb]

/-! ### Concrete fixtures for witnesses and counterexamples -/

/-- A concrete sandbox identifier. -/
def sbId : String := "sb1"

/-- A second, distinct sandbox identifier. -/
def sbId2 : String := "sb2"

/-- A concrete backend handle. -/
def sbHandle : Sandbox := ⟨"sb1", "started", "2024-01-01T00:00:00Z"⟩

/-- A backend on which every `get` succeeds with `sbHandle`. -/
def backendOk : String → Except BackendError Sandbox :=
  fun _ => Except.ok sbHandle

/-- A backend on which every `get` fails with `NotFound`. -/
def backendMissing : String → Except BackendError Sandbox :=
  fun _ => Except.error (BackendError.notFound ("Sandbox not found"))

/-- A backend on which every `get` fails with a non-`NotFound` failure. -/
def backendDown : String → Except BackendError Sandbox :=
  fun _ => Except.error (BackendError.other ("network timeout"))

/-- A server whose cache holds a fresh entry for `sbId` expiring at 100. -/
def stFresh100 : DaytonaMcpServer := ⟨[(sbId, ⟨sbId, 100⟩)], 30000, false⟩

/-- A server with an empty cache. -/
def stEmpty : DaytonaMcpServer := ⟨[], 30000, false⟩

/-! ### Helper lemmas shared between claims -/

/-- On a failing backend fetch, `getSandbox` returns the error and
leaves the whole server state unchanged (both cache branches). -/
theorem getSandbox_err_parts (st : DaytonaMcpServer)
    (backend : String → Except BackendError Sandbox) (now : Nat) (sandboxId : String)
    (e : BackendError) (hb : backend sandboxId = Except.error e) :
    (st.getSandbox backend now sandboxId).1 = Except.error e ∧
    (st.getSandbox backend now sandboxId).2.1 = st ∧
    putEvents (st.getSandbox backend now sandboxId).2.2 = [] := by
  by_cases h : isFresh (mapGet st.sandboxCache sandboxId) now = true
  · rw [getSandbox_fresh st backend now sandboxId h]
    refine ⟨hb, rfl, ?_⟩
    rw [putEvents_append, putEvents_logEvents]
    rfl
  · rw [Bool.not_eq_true] at h
    rw [getSandbox_miss_err st backend now sandboxId e h hb]
    refine ⟨rfl, rfl, ?_⟩
    rw [putEvents_append, putEvents_logEvents]
    rfl

/-! ### Claim theorems -/

/-- C1 counterexample: with a fresh cache entry for `sb1` expiring at
100 and `now = 50`, `getSandbox` succeeds but performs no put: the
cache entry keeps `expiresAt = 100`, which differs from
`now + cacheTtl = 30050`, and the trace records no cache write. -/
theorem resolve_always_put_counterexample :
    (stFresh100.getSandbox backendOk 50 sbId).1 = Except.ok sbHandle ∧
    (stFresh100.getSandbox backendOk 50 sbId).2.1 = stFresh100 ∧
    putEvents (stFresh100.getSandbox backendOk 50 sbId).2.2 = [] ∧
    mapGet (stFresh100.getSandbox backendOk 50 sbId).2.1.sandboxCache sbId =
      some ⟨sbId, 100⟩ ∧
    (100 : Nat) ≠ 50 + stFresh100.cacheTtl :=
  ⟨rfl, rfl, rfl, rfl, by decide⟩

/-- C1 (amended): on a successful resolution, the cache entry for `id`
is (re)written with `expiresAt = now + cacheTtl` exactly when the prior
cache state is Stale or Absent; on a Fresh prior state no put occurs and
the server state is unchanged. -/
theorem resolve_put_on_success_unless_fresh (st : DaytonaMcpServer)
    (backend : String → Except BackendError Sandbox) (now : Nat) (sandboxId : String)
    (sandbox : Sandbox) (hb : backend sandboxId = Except.ok sandbox) :
    (isFresh (mapGet st.sandboxCache sandboxId) now = false →
      mapGet (st.getSandbox backend now sandboxId).2.1.sandboxCache sandboxId =
        some ⟨sandboxId, now + st.cacheTtl⟩ ∧
      putEvents (st.getSandbox backend now sandboxId).2.2 =
        [(sandboxId, now + st.cacheTtl)]) ∧
    (isFresh (mapGet st.sandboxCache sandboxId) now = true →
      (st.getSandbox backend now sandboxId).2.1 = st ∧
      putEvents (st.getSandbox backend now sandboxId).2.2 = []) := by
  constructor
  · intro h
    rw [getSandbox_miss_ok st backend now sandboxId sandbox h hb]
    refine ⟨mapGet_mapSet_self _ _ _, ?_⟩
    rw [putEvents_append, putEvents_logEvents]
    rfl
  · intro h
    rw [getSandbox_fresh st backend now sandboxId h]
    refine ⟨rfl, ?_⟩
    rw [putEvents_append, putEvents_logEvents]
    rfl

/-- C1 (amended) witness: a stale entry (expiring at 100, `now = 200`)
is re-stamped to `200 + 30000`, and a fresh entry (`now = 50`) is left
alone. -/
theorem resolve_put_on_success_unless_fresh_witness :
    (mapGet (stFresh100.getSandbox backendOk 200 sbId).2.1.sandboxCache sbId =
      some ⟨sbId, 200 + stFresh100.cacheTtl⟩ ∧
     putEvents (stFresh100.getSandbox backendOk 200 sbId).2.2 =
      [(sbId, 200 + stFresh100.cacheTtl)]) ∧
    ((stFresh100.getSandbox backendOk 50 sbId).2.1 = stFresh100 ∧
     putEvents (stFresh100.getSandbox backendOk 50 sbId).2.2 = []) :=
  ⟨(resolve_put_on_success_unless_fresh stFresh100 backendOk 200 sbId sbHandle rfl).1
      (by decide),
   (resolve_put_on_success_unless_fresh stFresh100 backendOk 50 sbId sbHandle rfl).2
      (by decide)⟩

/-- C2: every `getSandbox` call performs exactly one backend `get` and
returns its result, regardless of the cache state. -/
theorem resolver_always_calls_backend (st : DaytonaMcpServer)
    (backend : String → Except BackendError Sandbox) (now : Nat) (sandboxId : String) :
    (st.getSandbox backend now sandboxId).1 = backend sandboxId ∧
    countBackendGets (st.getSandbox backend now sandboxId).2.2 = 1 := by
  refine ⟨getSandbox_fst st backend now sandboxId, ?_⟩
  by_cases h : isFresh (mapGet st.sandboxCache sandboxId) now = true
  · rw [getSandbox_fresh st backend now sandboxId h]
    rw [countBackendGets_append, countBackendGets_logEvents]
    rfl
  · rw [Bool.not_eq_true] at h
    cases hb : backend sandboxId with
    | ok sandbox =>
        rw [getSandbox_miss_ok st backend now sandboxId sandbox h hb]
        rw [countBackendGets_append, countBackendGets_logEvents]
        rfl
    | error e =>
        rw [getSandbox_miss_err st backend now sandboxId e h hb]
        rw [countBackendGets_append, countBackendGets_logEvents]
        rfl

/-- C3: after `put(id, ttl)` executed at time `t`, a lookup at `t'` with
`t ≤ t' < t + ttl` observes Fresh, and a lookup at `t' ≥ t + ttl` does
not observe Fresh. -/
theorem cache_freshness_window (cache : CacheMap) (id : String) (t ttl tq : Nat)
    (hle : t ≤ tq) :
    (tq < t + ttl → lookup (put cache id t ttl) id tq = LookupResult.Fresh) ∧
    (t + ttl ≤ tq → lookup (put cache id t ttl) id tq ≠ LookupResult.Fresh) := by
  have hg : mapGet (put cache id t ttl) id = some ⟨id, t + ttl⟩ :=
    mapGet_mapSet_self cache id ⟨id, t + ttl⟩
  constructor
  · intro hlt
    simp [lookup, hg, hlt]
  · intro hge
    simp [lookup, hg, Nat.not_lt.mpr hge]

/-- C3 witness: spec scenario with TTL 1000ms — after `put("sb1", 1000)`
at t = 0, lookup at t = 500 is Fresh and lookup at t = 1000 is not. -/
theorem cache_freshness_window_witness :
    lookup (put ([] : CacheMap) sbId 0 1000) sbId 500 = LookupResult.Fresh ∧
    lookup (put ([] : CacheMap) sbId 0 1000) sbId 1000 ≠ LookupResult.Fresh :=
  ⟨(cache_freshness_window [] sbId 0 1000 500 (by decide)).1 (by decide),
   (cache_freshness_window [] sbId 0 1000 1000 (by decide)).2 (by decide)⟩

/-- C5: if the backend `get` fails, `getSandbox` propagates that failure
untouched and performs no put: the server state is unchanged. -/
theorem resolver_failure_propagates_no_put (st : DaytonaMcpServer)
    (backend : String → Except BackendError Sandbox) (now : Nat) (sandboxId : String)
    (e : BackendError) (hb : backend sandboxId = Except.error e) :
    (st.getSandbox backend now sandboxId).1 = Except.error e ∧
    (st.getSandbox backend now sandboxId).2.1 = st ∧
    putEvents (st.getSandbox backend now sandboxId).2.2 = [] :=
  getSandbox_err_parts st backend now sandboxId e hb

/-- C5 witness: on a `NotFound` backend failure with an empty cache, the
error propagates and the state is unchanged. -/
theorem resolver_failure_propagates_no_put_witness :
    (stEmpty.getSandbox backendMissing 0 sbId).1 =
      Except.error (BackendError.notFound ("Sandbox not found")) ∧
    (stEmpty.getSandbox backendMissing 0 sbId).2.1 = stEmpty ∧
    putEvents (stEmpty.getSandbox backendMissing 0 sbId).2.2 = [] :=
  resolver_failure_propagates_no_put stEmpty backendMissing 0 sbId
    (BackendError.notFound ("Sandbox not found")) rfl

/-- C9: the value returned by `getSandbox` does not depend on the cache
contents — two runs with the same backend, time, TTL and verbosity but
different caches return the same result. -/
theorem returned_handle_cache_independent
    (backend : String → Except BackendError Sandbox) (now ttl : Nat) (v : Bool)
    (c1 c2 : CacheMap) (sandboxId : String) :
    (DaytonaMcpServer.getSandbox ⟨c1, ttl, v⟩ backend now sandboxId).1 =
    (DaytonaMcpServer.getSandbox ⟨c2, ttl, v⟩ backend now sandboxId).1 := by
  rw [getSandbox_fst, getSandbox_fst]

/-- A sequence of puts for `id` keeps at most one entry for `id`. -/
theorem countKey_putSeq_le_one (id : String) (stamps : List (Nat × Nat))
    (cache : CacheMap) (hinv : countKey cache id ≤ 1) :
    countKey (putSeq cache id stamps) id ≤ 1 := by
  induction stamps generalizing cache with
  | nil => exact hinv
  | cons s rest ih =>
      have h1 : countKey (put cache id s.1 s.2) id ≤ 1 := by
        rw [put, countKey_mapSet_self]
        omega
      simpa [putSeq, List.foldl_cons] using ih (put cache id s.1 s.2) h1

/-- C4: starting from a cache with at most one entry for `id`, any
sequence of `put(id, ...)` calls keeps at most one entry for `id` at
every intermediate state, and after the sequence exactly one entry
exists for `id`, stamped by the most recent put. -/
theorem single_entry_invariant (cache : CacheMap) (id : String)
    (stamps : List (Nat × Nat)) (t ttl : Nat)
    (hinv : countKey cache id ≤ 1) :
    (∀ pre suf, stamps = pre ++ suf → countKey (putSeq cache id pre) id ≤ 1) ∧
    mapGet (putSeq cache id (stamps ++ [(t, ttl)])) id = some ⟨id, t + ttl⟩ ∧
    countKey (putSeq cache id (stamps ++ [(t, ttl)])) id = 1 := by
  have hlast : putSeq cache id (stamps ++ [(t, ttl)]) =
      put (putSeq cache id stamps) id t ttl := by
    simp [putSeq, List.foldl_append]
  refine ⟨?_, ?_, ?_⟩
  · intro pre suf _
    exact countKey_putSeq_le_one id pre cache hinv
  · rw [hlast, put]
    exact mapGet_mapSet_self _ _ _
  · rw [hlast, put, countKey_mapSet_self]
    have := countKey_putSeq_le_one id stamps cache hinv
    omega

/-- C4 witness: from the empty cache, `put` at `(0, 1000)` then `(5, 20)`
leaves exactly one entry for `sb1`, stamped `expiresAt = 5 + 20`, and
the intermediate state after the first put has at most one entry. -/
theorem single_entry_invariant_witness :
    countKey (putSeq ([] : CacheMap) sbId [(0, 1000)]) sbId ≤ 1 ∧
    mapGet (putSeq ([] : CacheMap) sbId ([(0, 1000)] ++ [(5, 20)])) sbId =
      some ⟨sbId, 5 + 20⟩ ∧
    countKey (putSeq ([] : CacheMap) sbId ([(0, 1000)] ++ [(5, 20)])) sbId = 1 :=
  ⟨(single_entry_invariant [] sbId [(0, 1000)] 5 20 (by decide)).1
      [(0, 1000)] [] rfl,
   (single_entry_invariant [] sbId [(0, 1000)] 5 20 (by decide)).2.1,
   (single_entry_invariant [] sbId [(0, 1000)] 5 20 (by decide)).2.2⟩

/-- C7: the TTL is fixed once at construction
(`options.cacheTtl ?? DEFAULT_CACHE_TTL`, with the default equal to
30000 ms), `getSandbox` never changes it, and every cache write stamps
`expiresAt = now + cacheTtl` with that same constant. -/
theorem ttl_fixed_at_construction (options : DaytonaMcpServerOptions)
    (st : DaytonaMcpServer) (backend : String → Except BackendError Sandbox)
    (now : Nat) (sandboxId : String) :
    (mkServer options).cacheTtl = options.cacheTtl.getD DEFAULT_CACHE_TTL ∧
    DEFAULT_CACHE_TTL = 30000 ∧
    (st.getSandbox backend now sandboxId).2.1.cacheTtl = st.cacheTtl ∧
    ∀ i x, (i, x) ∈ putEvents (st.getSandbox backend now sandboxId).2.2 →
      x = now + st.cacheTtl := by
  refine ⟨rfl, rfl, ?_, ?_⟩
  · by_cases h : isFresh (mapGet st.sandboxCache sandboxId) now = true
    · rw [getSandbox_fresh st backend now sandboxId h]
    · rw [Bool.not_eq_true] at h
      cases hb : backend sandboxId with
      | ok sandbox => rw [getSandbox_miss_ok st backend now sandboxId sandbox h hb]
      | error e => rw [getSandbox_miss_err st backend now sandboxId e h hb]
  · intro i x hmem
    by_cases h : isFresh (mapGet st.sandboxCache sandboxId) now = true
    · rw [getSandbox_fresh st backend now sandboxId h, putEvents_append,
        putEvents_logEvents] at hmem
      simp [putEvents] at hmem
    · rw [Bool.not_eq_true] at h
      cases hb : backend sandboxId with
      | ok sandbox =>
          rw [getSandbox_miss_ok st backend now sandboxId sandbox h hb,
            putEvents_append, putEvents_logEvents] at hmem
          simp [putEvents] at hmem
          exact hmem.2
      | error e =>
          rw [getSandbox_miss_err st backend now sandboxId e h hb,
            putEvents_append, putEvents_logEvents] at hmem
          simp [putEvents] at hmem

/-- C7 witness: the default-constructed server has TTL 30000 and a miss
at `now = 50` stamps `expiresAt = 50 + 30000`. -/
theorem ttl_fixed_at_construction_witness :
    (mkServer ⟨none, none⟩).cacheTtl = Option.getD none DEFAULT_CACHE_TTL ∧
    (30050 : Nat) = 50 + stEmpty.cacheTtl :=
  ⟨(ttl_fixed_at_construction ⟨none, none⟩ stEmpty backendOk 50 sbId).1,
   (ttl_fixed_at_construction ⟨none, none⟩ stEmpty backendOk 50 sbId).2.2.2
      sbId 30050 (by decide)⟩

/-- C8: `getSandbox(id)` never removes a cache entry and never changes
the entry of any identifier other than `id`. -/
theorem getSandbox_frame (st : DaytonaMcpServer)
    (backend : String → Except BackendError Sandbox) (now : Nat)
    (sandboxId q : String) :
    (q ≠ sandboxId →
      mapGet (st.getSandbox backend now sandboxId).2.1.sandboxCache q =
        mapGet st.sandboxCache q) ∧
    ((mapGet st.sandboxCache q).isSome →
      (mapGet (st.getSandbox backend now sandboxId).2.1.sandboxCache q).isSome) := by
  by_cases h : isFresh (mapGet st.sandboxCache sandboxId) now = true
  · rw [getSandbox_fresh st backend now sandboxId h]
    exact ⟨fun _ => rfl, fun hs => hs⟩
  · rw [Bool.not_eq_true] at h
    cases hb : backend sandboxId with
    | ok sandbox =>
        rw [getSandbox_miss_ok st backend now sandboxId sandbox h hb]
        exact ⟨fun hq => mapGet_mapSet_ne _ _ _ _ hq,
          fun hs => mapGet_isSome_mapSet _ _ _ _ hs⟩
    | error e =>
        rw [getSandbox_miss_err st backend now sandboxId e h hb]
        exact ⟨fun _ => rfl, fun hs => hs⟩

/-- C8 witness: resolving `sb2` on a server caching `sb1` leaves the
`sb1` entry unchanged and present. -/
theorem getSandbox_frame_witness :
    mapGet (stFresh100.getSandbox backendOk 0 sbId2).2.1.sandboxCache sbId =
      mapGet stFresh100.sandboxCache sbId ∧
    (mapGet (stFresh100.getSandbox backendOk 0 sbId2).2.1.sandboxCache sbId).isSome :=
  ⟨(getSandbox_frame stFresh100 backendOk 0 sbId2 sbId).1 (by decide),
   (getSandbox_frame stFresh100 backendOk 0 sbId2 sbId).2 (by decide)⟩

/-- On any resolution failure, the `get-sandbox` handler throws the
fixed error `{ code: "ResourceNotFound", message: "Sandbox not found:
..." }`, whatever the backend failure was. -/
theorem getSandboxToolHandler_err (st : DaytonaMcpServer)
    (backend : String → Except BackendError Sandbox) (now : Nat) (sandboxId : String)
    (e : BackendError) (hb : backend sandboxId = Except.error e) :
    getSandboxToolHandler backend now st sandboxId =
      (Except.error ⟨"ResourceNotFound", "Sandbox not found: " ++ sandboxId⟩, st) := by
  by_cases h : isFresh (mapGet st.sandboxCache sandboxId) now = true
  · rw [getSandboxToolHandler, getSandbox_fresh st backend now sandboxId h, hb]
  · rw [Bool.not_eq_true] at h
    rw [getSandboxToolHandler, getSandbox_miss_err st backend now sandboxId e h hb]

/-- On a resolution failure, the `execute-command` handler throws the
fixed error `{ code: "InternalError", ... }`, whatever the backend
failure was. -/
theorem executeCommandToolHandler_resolveErr (st : DaytonaMcpServer)
    (backend : String → Except BackendError Sandbox)
    (exec : Sandbox → String → Option String → Option Nat → Except BackendError ExecuteResponse)
    (now : Nat) (sandboxId command : String) (cwd : Option String) (timeoutMs : Option Nat)
    (e : BackendError) (hb : backend sandboxId = Except.error e) :
    executeCommandToolHandler backend exec now st sandboxId command cwd timeoutMs =
      (Except.error ⟨"InternalError", "Failed to execute command: " ++ e.message⟩, st) := by
  by_cases h : isFresh (mapGet st.sandboxCache sandboxId) now = true
  · rw [executeCommandToolHandler, getSandbox_fresh st backend now sandboxId h, hb]
  · rw [Bool.not_eq_true] at h
    rw [executeCommandToolHandler, getSandbox_miss_err st backend now sandboxId e h hb]

/-- C6 counterexample: a non-`NotFound` backend failure (a network
outage) and a `NotFound` backend failure surface through the
`get-sandbox` handler as the identical error — the same fixed code
`"ResourceNotFound"` and the same message — so the surfaced kind does
not distinguish `NotFound` from other backend failures, and the command
handler likewise collapses both kinds into `"InternalError"`. -/
theorem handler_error_kind_counterexample :
    (getSandboxToolHandler backendDown 0 stEmpty sbId).1 =
      Except.error ⟨"ResourceNotFound", "Sandbox not found: " ++ sbId⟩ ∧
    (getSandboxToolHandler backendMissing 0 stEmpty sbId).1 =
      Except.error ⟨"ResourceNotFound", "Sandbox not found: " ++ sbId⟩ ∧
    (executeCommandToolHandler backendMissing (fun _ _ _ _ => Except.ok ⟨0, ""⟩)
        0 stEmpty sbId ("ls") none none).1 =
      Except.error ⟨"InternalError", "Failed to execute command: Sandbox not found"⟩ := by
  refine ⟨rfl, rfl, rfl⟩

/-- C6 (amended): every handler failure is a structured
`{ code, message }` error, but each handler maps every backend failure —
`NotFound` or not — to one fixed per-handler code (`"ResourceNotFound"`
for `get-sandbox`, `"InternalError"` for `execute-command`): the
backend's failure kind is masked, not distinguished. -/
theorem handler_error_single_fixed_kind (st : DaytonaMcpServer)
    (backend : String → Except BackendError Sandbox)
    (exec : Sandbox → String → Option String → Option Nat → Except BackendError ExecuteResponse)
    (now : Nat) (sandboxId command : String) (cwd : Option String) (timeoutMs : Option Nat)
    (e : BackendError) (hb : backend sandboxId = Except.error e) :
    (getSandboxToolHandler backend now st sandboxId).1 =
      Except.error ⟨"ResourceNotFound", "Sandbox not found: " ++ sandboxId⟩ ∧
    (executeCommandToolHandler backend exec now st sandboxId command cwd timeoutMs).1 =
      Except.error ⟨"InternalError", "Failed to execute command: " ++ e.message⟩ := by
  rw [getSandboxToolHandler_err st backend now sandboxId e hb,
    executeCommandToolHandler_resolveErr st backend exec now sandboxId command cwd
      timeoutMs e hb]
  exact ⟨rfl, rfl⟩

/-- C6 (amended) witness: instantiated at a non-`NotFound` backend
failure with an empty cache. -/
theorem handler_error_single_fixed_kind_witness :
    (getSandboxToolHandler backendDown 7 stEmpty sbId).1 =
      Except.error ⟨"ResourceNotFound", "Sandbox not found: " ++ sbId⟩ ∧
    (executeCommandToolHandler backendDown (fun _ _ _ _ => Except.ok ⟨0, ""⟩)
        7 stEmpty sbId ("ls") none none).1 =
      Except.error
        ⟨"InternalError",
         "Failed to execute command: " ++
           (BackendError.other ("network timeout")).message⟩ :=
  handler_error_single_fixed_kind stEmpty backendDown
    (fun _ _ _ _ => Except.ok ⟨0, ""⟩) 7 sbId ("ls") none none
    (BackendError.other ("network timeout")) rfl

/-- C10: under every interleaving of two concurrent `getSandbox(id)`
runs starting from an Absent cache state, both runs succeed with the
backend handle, the final cache holds exactly one entry for `id` (the
map is never corrupted), and that entry's `expiresAt` is the one written
by the last executed put. -/
theorem concurrent_resolve_last_put_wins (inter : Interleaving)
    (backend : String → Except BackendError Sandbox)
    (c0 : CacheMap) (id : String) (tA tB ttl : Nat) (handle : Sandbox)
    (habs : mapGet c0 id = none) (hok : backend id = Except.ok handle) :
    (runInterleaving inter backend c0 id tA tB ttl).1.1 = Except.ok handle ∧
    (runInterleaving inter backend c0 id tA tB ttl).1.2 = Except.ok handle ∧
    countKey (runInterleaving inter backend c0 id tA tB ttl).2.1 id = 1 ∧
    (runInterleaving inter backend c0 id tA tB ttl).2.2 ≠ [] ∧
    ∀ x, ((runInterleaving inter backend c0 id tA tB ttl).2.2).getLast? = some x →
      mapGet (runInterleaving inter backend c0 id tA tB ttl).2.1 id = some ⟨id, x⟩ := by
  have hc0 : countKey c0 id = 0 := countKey_eq_zero_of_mapGet_none c0 id habs
  cases inter with
  | a1a2b1b2 =>
      by_cases hf : tB < tA + ttl
      all_goals simp [runInterleaving, resolveBlock1, resolveBlock2, habs, isFresh,
        mapGet_mapSet_self, hok, hf]
      all_goals simp only [countKey_mapSet_self, hc0]
      all_goals omega
  | a1b1a2b2 =>
      simp [runInterleaving, resolveBlock1, resolveBlock2, habs, isFresh,
        mapGet_mapSet_self, hok]
      simp only [countKey_mapSet_self, hc0]
      omega
  | a1b1b2a2 =>
      simp [runInterleaving, resolveBlock1, resolveBlock2, habs, isFresh,
        mapGet_mapSet_self, hok]
      simp only [countKey_mapSet_self, hc0]
      omega
  | b1a1b2a2 =>
      simp [runInterleaving, resolveBlock1, resolveBlock2, habs, isFresh,
        mapGet_mapSet_self, hok]
      simp only [countKey_mapSet_self, hc0]
      omega
  | b1a1a2b2 =>
      simp [runInterleaving, resolveBlock1, resolveBlock2, habs, isFresh,
        mapGet_mapSet_self, hok]
      simp only [countKey_mapSet_self, hc0]
      omega
  | b1b2a1a2 =>
      by_cases hf : tA < tB + ttl
      all_goals simp [runInterleaving, resolveBlock1, resolveBlock2, habs, isFresh,
        mapGet_mapSet_self, hok, hf]
      all_goals simp only [countKey_mapSet_self, hc0]
      all_goals omega


/-- C10 witness: spec scenario 7 — interleaving A1 B1 A2 B2 from the
empty cache with `tA = 0`, `tB = 5`, TTL 1000: both calls succeed and
the single surviving entry carries the later put's `expiresAt = 1005`. -/
theorem concurrent_resolve_last_put_wins_witness :
    (runInterleaving Interleaving.a1b1a2b2 backendOk [] sbId 0 5 1000).1.1 =
      Except.ok sbHandle ∧
    (runInterleaving Interleaving.a1b1a2b2 backendOk [] sbId 0 5 1000).1.2 =
      Except.ok sbHandle ∧
    countKey (runInterleaving Interleaving.a1b1a2b2 backendOk [] sbId 0 5 1000).2.1
      sbId = 1 ∧
    (runInterleaving Interleaving.a1b1a2b2 backendOk [] sbId 0 5 1000).2.2 ≠ [] ∧
    mapGet (runInterleaving Interleaving.a1b1a2b2 backendOk [] sbId 0 5 1000).2.1
      sbId = some ⟨sbId, 1005⟩ :=
  ⟨(concurrent_resolve_last_put_wins Interleaving.a1b1a2b2 backendOk [] sbId 0 5 1000
      sbHandle rfl rfl).1,
   (concurrent_resolve_last_put_wins Interleaving.a1b1a2b2 backendOk [] sbId 0 5 1000
      sbHandle rfl rfl).2.1,
   (concurrent_resolve_last_put_wins Interleaving.a1b1a2b2 backendOk [] sbId 0 5 1000
      sbHandle rfl rfl).2.2.1,
   (concurrent_resolve_last_put_wins Interleaving.a1b1a2b2 backendOk [] sbId 0 5 1000
      sbHandle rfl rfl).2.2.2.1,
   (concurrent_resolve_last_put_wins Interleaving.a1b1a2b2 backendOk [] sbId 0 5 1000
      sbHandle rfl rfl).2.2.2.2 1005 (by decide)⟩

end DaytonaMcp
